import Mathlib

/-!
Verification development for the wandb launch image-build core
(`wandb/sdk/launch/builder/build.py`).

The Python source is shallowly embedded: pure string/byte manipulation
becomes Lean functions on `String` / `List Nat`; machine 32-bit words are
`Nat` reduced modulo `2^32`; ambient process state (`getpass.getuser`,
`os.geteuid`, `os.path.exists`, `docker.is_buildx_installed`) and external
collaborators (`pkg_resources.parse_requirements`, loader functions,
`builder.build_image`) are explicit parameters; Python runtime failures
(`UnboundLocalError`, `AssertionError`, raised `LaunchError`) are modelled
with `Except`.
-/

namespace WandbBuild

/-! ### 32-bit word arithmetic over Nat -/

def w32 : Nat := 4294967296

def add32 (a b : Nat) : Nat := (a + b) % w32

def rotr (n x : Nat) : Nat := ((x >>> n) ||| (x <<< (32 - n))) % w32

/-! ### SHA-256 (hashlib.sha256), embedded from the FIPS-180-4 algorithm the
Python standard library implements.  Words are Nats `< 2^32`. -/

def sha256K : List Nat :=
  [1116352408, 1899447441, 3049323471, 3921009573, 961987163,
   1508970993, 2453635748, 2870763221, 3624381080, 310598401,
   607225278, 1426881987, 1925078388, 2162078206, 2614888103,
   3248222580, 3835390401, 4022224774, 264347078, 604807628,
   770255983, 1249150122, 1555081692, 1996064986, 2554220882,
   2821834349, 2952996808, 3210313671, 3336571891, 3584528711,
   113926993, 338241895, 666307205, 773529912, 1294757372,
   1396182291, 1695183700, 1986661051, 2177026350, 2456956037,
   2730485921, 2820302411, 3259730800, 3345764771, 3516065817,
   3600352804, 4094571909, 275423344, 430227734, 506948616,
   659060556, 883997877, 958139571, 1322822218, 1537002063,
   1747873779, 1955562222, 2024104815, 2227730452, 2361852424,
   2428436474, 2756734187, 3204031479, 3329325298]


structure Sha256State where
  a : Nat
  b : Nat
  c : Nat
  d : Nat
  e : Nat
  f : Nat
  g : Nat
  h : Nat

def sha256Init : Sha256State :=
  ⟨1779033703, 3144134277, 1013904242, 2773480762,
   1359893119, 2600822924, 528734635, 1541459225⟩


def smallSigma0 (x : Nat) : Nat := (rotr 7 x) ^^^ (rotr 18 x) ^^^ (x >>> 3)

def smallSigma1 (x : Nat) : Nat := (rotr 17 x) ^^^ (rotr 19 x) ^^^ (x >>> 10)

def bigSigma0 (x : Nat) : Nat := (rotr 2 x) ^^^ (rotr 13 x) ^^^ (rotr 22 x)

def bigSigma1 (x : Nat) : Nat := (rotr 6 x) ^^^ (rotr 11 x) ^^^ (rotr 25 x)

def chFn (x y z : Nat) : Nat := (x &&& y) ^^^ ((x ^^^ 4294967295) &&& z)

def majFn (x y z : Nat) : Nat := (x &&& y) ^^^ (x &&& z) ^^^ (y &&& z)

/-- One word of the extended message schedule, computed from the reversed
list of the words produced so far. -/
def newScheduleWord (acc : List Nat) : Nat :=
  add32 (add32 (smallSigma1 (acc.getD 1 0)) (acc.getD 6 0))
        (add32 (smallSigma0 (acc.getD 14 0)) (acc.getD 15 0))

def extendScheduleRev : Nat → List Nat → List Nat
  | 0, acc => acc
  | n + 1, acc => extendScheduleRev n (newScheduleWord acc :: acc)

/-- Extend the 16 words of a block to the full 64-word schedule. -/
def sha256Schedule (ws : List Nat) : List Nat :=
  (extendScheduleRev 48 ws.reverse).reverse

def shaRound (st : Sha256State) (kw : Nat × Nat) : Sha256State :=
  let t1 := add32 st.h (add32 (bigSigma1 st.e)
              (add32 (chFn st.e st.f st.g) (add32 kw.1 kw.2)))
  let t2 := add32 (bigSigma0 st.a) (majFn st.a st.b st.c)
  ⟨add32 t1 t2, st.a, st.b, st.c, add32 st.d t1, st.e, st.f, st.g⟩

def addStates (s t : Sha256State) : Sha256State :=
  ⟨add32 s.a t.a, add32 s.b t.b, add32 s.c t.c, add32 s.d t.d,
   add32 s.e t.e, add32 s.f t.f, add32 s.g t.g, add32 s.h t.h⟩

def processBlock (st : Sha256State) (ws : List Nat) : Sha256State :=
  addStates st ((sha256K.zip (sha256Schedule ws)).foldl shaRound st)

/-- Pack big-endian bytes into 32-bit words, four at a time. -/
def bytesToWords : List Nat → List Nat
  | b0 :: b1 :: b2 :: b3 :: rest =>
      (((b0 * 256 + b1) * 256 + b2) * 256 + b3) :: bytesToWords rest
  | _ => []

/-- Split a word list into 16-word blocks (a padded message always yields a
multiple of 16 words; the final catch-all only keeps the function total). -/
def wordBlocks : List Nat → List (List Nat)
  | [] => []
  | w1 :: w2 :: w3 :: w4 :: w5 :: w6 :: w7 :: w8 ::
    w9 :: w10 :: w11 :: w12 :: w13 :: w14 :: w15 :: w16 :: rest =>
      [w1, w2, w3, w4, w5, w6, w7, w8,
       w9, w10, w11, w12, w13, w14, w15, w16] :: wordBlocks rest
  | l => [l]

/-- The 8-byte big-endian encoding of the bit length. -/
def lengthBytes (n : Nat) : List Nat :=
  [(n >>> 56) % 256, (n >>> 48) % 256, (n >>> 40) % 256, (n >>> 32) % 256,
   (n >>> 24) % 256, (n >>> 16) % 256, (n >>> 8) % 256, n % 256]

/-- SHA-256 padding: a 0x80 byte, zeros to 56 mod 64, then the bit length. -/
def padMessage (msg : List Nat) : List Nat :=
  let L := msg.length
  let k := (119 - L % 64) % 64
  msg ++ 128 :: (List.replicate k 0 ++ lengthBytes (8 * L))

def wordBytes (w : Nat) : List Nat :=
  [(w >>> 24) % 256, (w >>> 16) % 256, (w >>> 8) % 256, w % 256]

def stateBytes (s : Sha256State) : List Nat :=
  wordBytes s.a ++ wordBytes s.b ++ wordBytes s.c ++ wordBytes s.d ++
  wordBytes s.e ++ wordBytes s.f ++ wordBytes s.g ++ wordBytes s.h

/-- The 32-byte SHA-256 digest of a byte string. -/
def sha256Bytes (msg : List Nat) : List Nat :=
  stateBytes ((wordBlocks (bytesToWords (padMessage msg))).foldl processBlock sha256Init)

/-! ### Hex digests and UTF-8 encoding -/

def hexDigitChars : List Char := "0123456789abcdef".data

def byteHex (b : Nat) : List Char :=
  [hexDigitChars.getD (b / 16) '0', hexDigitChars.getD (b % 16) '0']

/-- `hashlib...hexdigest()`: lowercase hex characters, two per byte. -/
def hexdigest (bytes : List Nat) : String :=
  String.mk ((bytes.map byteHex).flatten)

/-- `str.encode("utf-8")` of one code point. -/
def utf8Char (c : Char) : List Nat :=
  let n := c.toNat
  if n < 128 then [n]
  else if n < 2048 then [192 ||| (n >>> 6), 128 ||| (n &&& 63)]
  else if n < 65536 then
    [224 ||| (n >>> 12), 128 ||| ((n >>> 6) &&& 63), 128 ||| (n &&& 63)]
  else
    [240 ||| (n >>> 18), 128 ||| ((n >>> 12) &&& 63),
     128 ||| ((n >>> 6) &&& 63), 128 ||| (n &&& 63)]

def utf8Encode (s : String) : List Nat := (s.data.map utf8Char).flatten

/-- `hashlib.sha256(s.encode("utf-8")).hexdigest()`. -/
def sha256Hexdigest (s : String) : String := hexdigest (sha256Bytes (utf8Encode s))

/-- Python string slicing `s[:n]` (by code points). -/
def strTake (s : String) (n : Nat) : String := String.mk (s.data.take n)

/-- `image_tag_from_dockerfile_and_source` (build.py:561-568): hash the image
source string concatenated with the Dockerfile contents, keep the first 8 hex
characters.  `launch_project.get_image_source_string()` is defined outside
this file's source and is therefore passed in as the already-resolved
`image_source_string`. -/
def image_tag_from_dockerfile_and_source
    (image_source_string dockerfile_contents : String) : String :=
  let unique_id_string := image_source_string ++ dockerfile_contents
  strTake (sha256Hexdigest unique_id_string) 8

/-! ### Project descriptor and Python truthiness -/

/-- The fields of `LaunchProject` (defined in `_project_spec`, outside this
file's source) that `build.py` reads. -/
structure LaunchProject where
  docker_image : Option String
  docker_user_id : Option Int
  deps_type : Option String
  project_dir : Option String
  python_version : Option String
  uri : Option String

/-- Python truthiness of an `Optional[str]`: `None` and `""` are falsy. -/
def pyTruthyStr : Option String → Bool
  | none => false
  | some s => !(s == "")

/-- `get_docker_user` (build.py:60-70).  `getpass.getuser()` and
`os.geteuid()` are ambient process state, passed in as `username` / `euid`.
`launch_project.docker_user_id or os.geteuid()` uses Python truthiness: a
`None` or `0` override falls through to the effective uid. -/
def get_docker_user (lp : LaunchProject) (runner_type : String)
    (username : String) (euid : Int) : String × Int :=
  if runner_type == "sagemaker" && !pyTruthyStr lp.docker_image then
    (username, 0)
  else
    let userid := match lp.docker_user_id with
      | some n => if n == 0 then euid else n
      | none => euid
    (username, userid)

/-! ### shlex quoting and the entry-point `join` -/

def squote : Char := Char.ofNat 39

def dquote : Char := Char.ofNat 34

/-- The character class of `shlex._find_unsafe` under `re.ASCII`: ASCII word
characters (letters, digits, underscore) and the punctuation
`@ % + = : , . slash hyphen` are safe; every other character is unsafe. -/
def isShlexSafeChar (c : Char) : Bool :=
  c.isAlphanum || c == '_' || "@%+=:,./-".data.contains c

/-- One character of `s.replace("'", "'\"'\"'")` — the single-character
pattern makes the replacement a per-character expansion. -/
def escQuoteChar (c : Char) : List Char :=
  if c == squote then [squote, dquote, squote, dquote, squote] else [c]

/-- `shlex.quote` (= `six.moves.shlex_quote`): empty strings become `''`,
safe strings pass through, anything else is wrapped in single quotes with
embedded single quotes expanded. -/
def shlex_quote (s : String) : String :=
  if s == "" then String.mk [squote, squote]
  else if s.data.all isShlexSafeChar then s
  else String.mk ((squote :: (s.data.map escQuoteChar).flatten) ++ [squote])

/-- `arg.replace("'", "")`: delete every single-quote character. -/
def removeSingleQuotes (s : String) : String :=
  String.mk (s.data.filter (fun c => !(c == squote)))

/-- `join` (build.py:456-462): quote-strip each token, then shell-quote, then
join with spaces. -/
def join (split_command : List String) : String :=
  String.intercalate " " (split_command.map (fun arg => shlex_quote (removeSingleQuotes arg)))

/-- The standard shell-escaped joining (`shlex.join`): quote each token as it
is, then join with spaces.  Reference point for C10; not in the source. -/
def shlexJoinStd (split_command : List String) : String :=
  String.intercalate " " (split_command.map shlex_quote)

/-! ### Requirements section (`get_requirements_section`) -/

def disableCacheLine : String := "RUN WANDB_DISABLE_CACHE=true"

def pipCacheMountLine : String :=
  "RUN --mount=type=cache,mode=0777,target=/root/.cache/pip"

def condaCacheMountLine : String :=
  "RUN --mount=type=cache,mode=0777,target=/opt/conda/pkgs"

def buildxWarning : String :=
  "Docker BuildX is not installed, for faster builds upgrade docker: https://github.com/docker/buildx#installing"

def noReqWarning : String := "No requirements file found. No packages will be installed."

/-- `PIP_TEMPLATE.format(...)` (build.py:131-137). -/
def pipTemplateFmt (pfx files install : String) : String :=
  "\nRUN python -m venv /env\n# make sure we install into the env\nENV PATH=\"/env/bin:$PATH\"\nCOPY "
  ++ files ++ " ./\n" ++ pfx ++ " " ++ install ++ "\n"

/-- `CONDA_TEMPLATE.format(...)` (build.py:140-150); the backslash-newline
pairs in the Python literal are line continuations and vanish from the
string. -/
def condaTemplateFmt (pfx : String) : String :=
  "\nCOPY src/environment.yml .\n" ++ pfx
  ++ " conda env create -f environment.yml -n env\n\n# pack the environment so that we can transfer to the base image\nRUN conda install -c conda-forge conda-pack\nRUN conda pack -n env -o /tmp/env.tar &&     mkdir /env && cd /env && tar xf /tmp/env.tar &&     rm /tmp/env.tar\nRUN /env/bin/conda-unpack\n"

/-- One outcome of `pkg_resources.parse_requirements` on one requirement of
`requirements.txt` (the parser is an external library): a requirement object
with a `name`, an object without one (stringified as-is), or a parse error
(skipped and logged). -/
inductive ParsedReq where
  | named (name : String)
  | unnamed (rep : String)
  | failed (msg : String)

/-- How `_parse_existing_requirements` turns one parse outcome into an
include-set member: named packages are lowercased then shell-quoted, unnamed
ones are shell-quoted as stringified, errors are skipped. -/
def processReq : ParsedReq → Option String
  | .named name => some (shlex_quote name.toLower)
  | .unnamed rep => some (shlex_quote rep)
  | .failed _ => none

/-- `set.add`: Python set membership, modelled as a duplicate-free list in
first-insertion order (CPython's set iteration order is unspecified; all
theorems about the include set constrain only its members). -/
def setInsert (l : List String) (s : String) : List String :=
  if s ∈ l then l else l ++ [s]

/-- The `include_only` set accumulated by `_parse_existing_requirements`. -/
def includeOnly (parsed : List ParsedReq) : List String :=
  parsed.foldl
    (fun acc p => match processReq p with
      | some s => setInsert acc s
      | none => acc) []

/-- `_parse_existing_requirements` (build.py:399-423).  `os.path.exists` on
`requirements.txt` is the `reqExists` parameter, the external parser's
outcomes are `parsed`. -/
def parse_existing_requirements (reqExists : Bool) (parsed : List ParsedReq) : String :=
  if reqExists then
    "WANDB_ONLY_INCLUDE=" ++ String.intercalate "," (includeOnly parsed) ++ " "
  else ""

/-- `get_requirements_section` (build.py:272-316).  `reqExists` /
`frozenExists` stand for `os.path.exists` on `requirements.txt` /
`requirements.frozen.txt`; `buildxProbe` for `docker.is_buildx_installed()`.
Returns the rendered section together with the `wandb.termwarn` messages
emitted, or an error when Python would raise (`prefix` / `buildx_installed` /
`pip_install_line` referenced while unbound).  The success payload is
`(requirements_line, warnings)`. -/
def get_requirements_section (lp : LaunchProject) (reqExists frozenExists : Bool)
    (parsed : List ParsedReq) (builder_type : String) (buildxProbe : Bool) :
    Except String (String × List String) :=
  let step1 : Option String × Option Bool × List String :=
    if builder_type == "docker" then
      if buildxProbe then (none, some true, [])
      else (some disableCacheLine, some false, [buildxWarning])
    else if builder_type == "kaniko" then (some disableCacheLine, some false, [])
    else (none, none, [])
  let pfx0 := step1.1
  let buildxInstalled := step1.2.1
  let warns := step1.2.2
  if lp.deps_type == some "pip" then
    let hasReq := !(lp.project_dir == none) && reqExists
    let hasFrozen := !(lp.project_dir == none) && frozenExists
    let files1 : List String := if hasReq then ["src/requirements.txt"] else []
    let install1 : Option String :=
      if hasReq then some "pip install -r requirements.txt" else none
    let files2 := if hasFrozen
      then files1 ++ ["src/requirements.frozen.txt", "_wandb_bootstrap.py"]
      else files1
    let install2 := if hasFrozen
      then some (parse_existing_requirements reqExists parsed ++ "python _wandb_bootstrap.py")
      else install1
    match buildxInstalled with
    | none => .error "NameError: name buildx_installed is not defined"
    | some bi =>
      let pfx := if bi then some pipCacheMountLine else pfx0
      match pfx, install2 with
      | some p, some i =>
          .ok (pipTemplateFmt p (String.intercalate " " files2) i, warns)
      | none, _ =>
          .error "UnboundLocalError: local variable referenced before assignment"
      | some _, none =>
          .error "UnboundLocalError: local variable pip_install_line referenced before assignment"
  else if lp.deps_type == some "conda" then
    match buildxInstalled with
    | none => .error "NameError: name buildx_installed is not defined"
    | some bi =>
      let pfx := if bi then some condaCacheMountLine else pfx0
      match pfx with
      | some p => .ok (condaTemplateFmt p, warns)
      | none =>
          .error "UnboundLocalError: local variable referenced before assignment"
  else
    .ok ("RUN mkdir -p env/", warns ++ [noReqWarning])

/-! ### Launch configuration values and `build_image_from_project` -/

/-- A YAML-loaded configuration value as `build_image_from_project` observes
it: only `isinstance(x, dict)`, `str(x)` and `type(x).__name__` are used, so
non-mapping values carry their Python string form. -/
inductive ConfigVal where
  | vdict (rep : String)
  | vlist (rep : String)
  | vstr (s : String)
  | vint (n : Int)
  | vbool (b : Bool)
  | vnone

/-- `type(x).__name__`. -/
def ConfigVal.typeName : ConfigVal → String
  | .vdict _ => "dict"
  | .vlist _ => "list"
  | .vstr _ => "str"
  | .vint _ => "int"
  | .vbool _ => "bool"
  | .vnone => "NoneType"

/-- `str(x)` as interpolated by the f-strings in the error messages. -/
def ConfigVal.pyStr : ConfigVal → String
  | .vdict r => r
  | .vlist r => r
  | .vstr s => s
  | .vint n => toString n
  | .vbool b => if b then "True" else "False"
  | .vnone => "None"

/-- `isinstance(x, dict)`. -/
def ConfigVal.isDict : ConfigVal → Bool
  | .vdict _ => true
  | _ => false

/-- The three top-level sections `build_image_from_project` reads from the
launch config mapping; an absent key makes `launch_config.get(key, {})`
return the empty dict. -/
structure LaunchConfig where
  environment : Option ConfigVal
  registry : Option ConfigVal
  builder : Option ConfigVal

/-- A section passes validation when it is absent (defaulted to `{}`) or is a
mapping. -/
def sectionIsDict : Option ConfigVal → Bool
  | none => true
  | some v => v.isDict

/-- The `LaunchError` message raised for a non-mapping section named `sec`
holding value `v`. -/
def invalidConfigMsg (sec : String) (v : ConfigVal) : String :=
  "Invalid " ++ sec ++ " config: " ++ v.pyStr ++ " of type " ++ v.typeName
  ++ " loaded from launch config. Expected dict."

def noBuilderMsg : String := "Unable to build image. No builder found."

def buildFailureMsg : String := "Error building image uri"

/-- `build_image_from_project` (build.py:500-558).  External collaborators
are abstracted: `environment_from_config` / `registry_from_config` /
`fetch_and_validate_project` are loaders outside this file's source and are
taken as succeeding (their own failures are out of scope per the spec);
`builder_from_config` finding a builder is `builderResolves`, and the
builder's `build_image` result is `buildResult` (`None` for no reference;
Python truthiness makes `""` count as no reference too). -/
def build_image_from_project (lp : LaunchProject) (cfg : LaunchConfig)
    (builderResolves : Bool) (buildResult : Option String) : Except String String :=
  if !pyTruthyStr lp.uri then
    .error "AssertionError: To build an image on queue a URI must be set."
  else
    let envCfg := cfg.environment.getD (.vdict "\x7b\x7d")
    if !envCfg.isDict then .error (invalidConfigMsg "environment" envCfg)
    else
      let regCfg := cfg.registry.getD (.vdict "\x7b\x7d")
      if !regCfg.isDict then .error (invalidConfigMsg "registry" regCfg)
      else
        let bldCfg := cfg.builder.getD (.vdict "\x7b\x7d")
        if !bldCfg.isDict then .error (invalidConfigMsg "builder" bldCfg)
        else if !builderResolves then .error noBuilderMsg
        else match buildResult with
          | none => .error buildFailureMsg
          | some u => if u == "" then .error buildFailureMsg else .ok u

/-! ### Build-context staging (`_create_docker_build_ctx`) -/

/-- A file-system entry: regular file, symbolic link, or directory with an
ordered list of named children. -/
inductive FSEntry where
  | file (content : String)
  | symlink (target : String)
  | dir (entries : List (String × FSEntry))

/-- The name excluded by `shutil.ignore_patterns("fsmonitor--daemon.ipc")`
(an exact-match pattern, applied at every directory level). -/
def fsmonitorName : String := "fsmonitor--daemon.ipc"

mutual

/-- `shutil.copytree(..., symlinks=True, ignore=ignore_patterns(...))` on one
entry: files and symlinks are copied as themselves, directories recursively
with the ignored name dropped. -/
def copyEntry : FSEntry → FSEntry
  | .file c => .file c
  | .symlink t => .symlink t
  | .dir es => .dir (copyEntries es)

def copyEntries : List (String × FSEntry) → List (String × FSEntry)
  | [] => []
  | (n, e) :: rest =>
    if n == fsmonitorName then copyEntries rest
    else (n, copyEntry e) :: copyEntries rest

end

/-- Write (create or overwrite) the child `nm` of a directory. -/
def writeEntry : List (String × FSEntry) → String → FSEntry → List (String × FSEntry)
  | [], nm, e => [(nm, e)]
  | (n, x) :: rest, nm, e =>
    if n == nm then (nm, e) :: rest else (n, x) :: writeEntry rest nm e

/-- Look a child up by name. -/
def lookupEntry (es : List (String × FSEntry)) (nm : String) : Option FSEntry :=
  (es.find? (fun p => p.1 == nm)).map Prod.snd

def _GENERATED_DOCKERFILE_NAME : String := "Dockerfile.wandb-autogenerated"

def bootstrapName : String := "_wandb_bootstrap.py"

/-- `_create_docker_build_ctx` (build.py:426-453): starting from the fresh
empty directory of `tempfile.mkdtemp()`, copy the project tree under `src`,
copy the bootstrap helper (its on-disk bytes are `bootstrapContent`) to the
root, write `src/runtime.txt` when a python version is pinned, and write the
Dockerfile under its reserved name.  `projectTree` is the entry list of
`launch_project.project_dir`. -/
def _create_docker_build_ctx (projectTree : List (String × FSEntry))
    (python_version : Option String) (bootstrapContent dockerfile_contents : String) :
    List (String × FSEntry) :=
  let d0 : List (String × FSEntry) := []
  let d1 := writeEntry d0 "src" (.dir (copyEntries projectTree))
  let d2 := writeEntry d1 bootstrapName (.file bootstrapContent)
  let d3 := match python_version with
    | some v =>
      let srcDir := match lookupEntry d2 "src" with
        | some (.dir es) => es
        | _ => []
      writeEntry d2 "src" (.dir (writeEntry srcDir "runtime.txt" (.file ("python-" ++ v))))
    | none => d2
  writeEntry d3 _GENERATED_DOCKERFILE_NAME (.file dockerfile_contents)

/-! ### Helper lemmas -/

/-- A character allowed in a lowercase hexadecimal string. -/
def isLowerHexChar (c : Char) : Bool :=
  c.isDigit || (97 ≤ c.toNat && c.toNat ≤ 102)

theorem getD_mem_or_eq {α : Type} (l : List α) (n : Nat) (d : α) :
    l.getD n d ∈ l ∨ l.getD n d = d := by
  induction l generalizing n with
  | nil => right; simp [List.getD]
  | cons a t ih =>
    cases n with
    | zero => left; simp [List.getD]
    | succ m =>
      rcases ih m with h | h
      · left; simpa [List.getD] using List.mem_cons_of_mem a (by simpa [List.getD] using h)
      · right; simpa [List.getD] using h

theorem byteHex_subset_hex (b : Nat) : ∀ c ∈ byteHex b, c ∈ hexDigitChars := by
  intro c hc
  have hzero : ('0' : Char) ∈ hexDigitChars := by decide
  simp only [byteHex, List.mem_cons, List.not_mem_nil, or_false] at hc
  rcases hc with rfl | rfl
  · rcases getD_mem_or_eq hexDigitChars (b / 16) '0' with h | h
    · exact h
    · rw [h]; exact hzero
  · rcases getD_mem_or_eq hexDigitChars (b % 16) '0' with h | h
    · exact h
    · rw [h]; exact hzero

theorem hexdigest_chars (bytes : List Nat) :
    ∀ c ∈ (hexdigest bytes).data, c ∈ hexDigitChars := by
  intro c hc
  simp only [hexdigest, List.mem_flatten, List.mem_map] at hc
  obtain ⟨l, ⟨b, _hb, rfl⟩, hcl⟩ := hc
  exact byteHex_subset_hex b c hcl

theorem hexdigest_length (bytes : List Nat) :
    (hexdigest bytes).data.length = 2 * bytes.length := by
  induction bytes with
  | nil => rfl
  | cons b t ih =>
    simp only [hexdigest, List.map_cons, List.flatten_cons, List.length_append] at ih ⊢
    simp only [byteHex, List.length_cons, List.length_nil]
    omega

theorem sha256Bytes_length (msg : List Nat) : (sha256Bytes msg).length = 32 := by
  simp [sha256Bytes, stateBytes, wordBytes]

/-! ### Claim theorems -/

/-- C1: for every image-source-identity string and recipe text, the tag is
the first 8 hex characters of the SHA-256 digest of the UTF-8 encoding of
their concatenation, and it is always an 8-character lowercase hex string. -/
theorem claim1_tag_shape (ident text : String) :
    image_tag_from_dockerfile_and_source ident text
      = strTake (hexdigest (sha256Bytes (utf8Encode (ident ++ text)))) 8
    ∧ (image_tag_from_dockerfile_and_source ident text).length = 8
    ∧ ∀ c ∈ (image_tag_from_dockerfile_and_source ident text).data,
        c ∈ hexDigitChars ∧ isLowerHexChar c = true := by
  refine ⟨rfl, ?_, ?_⟩
  · show ((hexdigest (sha256Bytes (utf8Encode (ident ++ text)))).data.take 8).length = 8
    rw [List.length_take, hexdigest_length, sha256Bytes_length]
    decide
  · intro c hc
    have hmem : c ∈ (hexdigest (sha256Bytes (utf8Encode (ident ++ text)))).data :=
      List.mem_of_mem_take hc
    have h1 := hexdigest_chars _ c hmem
    refine ⟨h1, ?_⟩
    have : ∀ c ∈ hexDigitChars, isLowerHexChar c = true := by decide
    exact this c h1

/-- Witness for C1: the concrete tag of `("i", "a")` is `"26138d8a"`; its
first character is a lowercase hex digit. -/
theorem claim1_witness :
    image_tag_from_dockerfile_and_source "i" "a"
      = strTake (hexdigest (sha256Bytes (utf8Encode ("i" ++ "a")))) 8
    ∧ (image_tag_from_dockerfile_and_source "i" "a").length = 8
    ∧ ('2' ∈ hexDigitChars ∧ isLowerHexChar '2' = true) :=
  ⟨(claim1_tag_shape "i" "a").1, (claim1_tag_shape "i" "a").2.1,
   (claim1_tag_shape "i" "a").2.2 '2' (by decide)⟩

/-- C6 counterexample: the 8-hex-character tag is a 32-bit truncation, so two
distinct recipe texts can collide; here `tag("i","92e2") = tag("i","2a431") =
"133aabd5"` although the texts differ.  This refutes
`tag(id, t1) ≠ tag(id, t2)` whenever `t1 ≠ t2` as stated. -/
theorem claim6_counterexample :
    image_tag_from_dockerfile_and_source "i" "92e2"
      = image_tag_from_dockerfile_and_source "i" "2a431"
    ∧ ("92e2" : String) ≠ "2a431" := by
  constructor
  · decide
  · decide

/-- C6 amended: the tag is deterministic — identical identity and recipe text
always yield the identical tag, and a tag difference implies an input
difference — but distinct recipe texts need not yield distinct tags, because
the tag keeps only 8 hex characters (32 bits) of the digest. -/
theorem claim6_amended (ids t1 t2 : String) :
    (t1 = t2 → image_tag_from_dockerfile_and_source ids t1
      = image_tag_from_dockerfile_and_source ids t2)
    ∧ (image_tag_from_dockerfile_and_source ids t1
        ≠ image_tag_from_dockerfile_and_source ids t2 → t1 ≠ t2) := by
  refine ⟨fun h => by rw [h], fun h ht => h (by rw [ht])⟩

/-- Witness for C6 amended: instantiated at concrete inputs. -/
theorem claim6_amended_witness :
    image_tag_from_dockerfile_and_source "i" "a" = image_tag_from_dockerfile_and_source "i" "a"
    ∧ ("a" : String) ≠ "b" :=
  ⟨(claim6_amended "i" "a" "a").1 rfl, (claim6_amended "i" "a" "b").2 (by decide)⟩

/-- C2 counterexample: with an explicit uid override of `0` on a
non-root-mandating runner, Python's `or` treats the override as absent and
the code resolves the host effective uid (here 1000), not the override. -/
theorem claim2_counterexample :
    (⟨none, some 0, none, none, none, none⟩ : LaunchProject).docker_user_id = some 0
    ∧ get_docker_user ⟨none, some 0, none, none, none, none⟩ "local-container" "alice" 1000
        = ("alice", 1000)
    ∧ (1000 : Int) ≠ 0 := by
  refine ⟨rfl, rfl, by decide⟩

/-- C2 amended: for a sagemaker runner with no (truthy) docker image the
resolved uid is 0 regardless of any override; otherwise a *nonzero* explicit
override wins, and a `None` or `0` override falls through to the host
effective uid (Python truthiness of `docker_user_id or os.geteuid()`). -/
theorem claim2_amended (lp : LaunchProject) (runner username : String) (euid : Int) :
    ((runner = "sagemaker" ∧ pyTruthyStr lp.docker_image = false) →
      get_docker_user lp runner username euid = (username, 0))
    ∧ (¬(runner = "sagemaker" ∧ pyTruthyStr lp.docker_image = false) →
        (∀ n : Int, lp.docker_user_id = some n → n ≠ 0 →
          get_docker_user lp runner username euid = (username, n))
        ∧ ((lp.docker_user_id = none ∨ lp.docker_user_id = some 0) →
          get_docker_user lp runner username euid = (username, euid))) := by
  constructor
  · rintro ⟨hr, hi⟩
    simp [get_docker_user, hr, hi]
  · intro hn
    have hcond : (runner == "sagemaker" && !pyTruthyStr lp.docker_image) = false := by
      by_cases hr : runner = "sagemaker"
      · by_cases hi : pyTruthyStr lp.docker_image = false
        · exact absurd ⟨hr, hi⟩ hn
        · simp [eq_true_of_ne_false hi]
      · simp [hr]
    constructor
    · intro n hsome hnz
      simp [get_docker_user, hcond, hsome, hnz]
    · rintro (h | h) <;> simp [get_docker_user, hcond, h]

/-- Witness for C2 amended: a nonzero override of 7 wins on a generic
runner. -/
theorem claim2_amended_witness :
    get_docker_user ⟨none, some 7, none, none, none, none⟩ "local-container" "alice" 1000
      = ("alice", 7) :=
  ((claim2_amended ⟨none, some 7, none, none, none, none⟩ "local-container" "alice" 1000).2
      (by decide)).1 7 rfl (by decide)

/-! ### Lemmas about quote deletion and shell quoting (for C10) -/

theorem removeSingleQuotes_no_squote (s : String) :
    squote ∉ (removeSingleQuotes s).data := by
  intro h
  have := List.of_mem_filter h
  simp at this

theorem removeSingleQuotes_eq_self (s : String) (h : squote ∉ s.data) :
    removeSingleQuotes s = s := by
  simp only [removeSingleQuotes]
  rw [List.filter_eq_self.mpr]
  · intro a ha
    have hne : a ≠ squote := fun e => h (e ▸ ha)
    simp [hne]

theorem count_escQuote (l : List Char) :
    ((l.map escQuoteChar).flatten).count squote = 3 * l.count squote := by
  induction l with
  | nil => rfl
  | cons c t ih =>
    simp only [List.map_cons, List.flatten_cons, List.count_append, ih]
    by_cases hc : c = squote
    · subst hc
      have h5 : (escQuoteChar squote).count squote = 3 := by decide
      rw [h5, List.count_cons_self]
      omega
    · have h1 : (escQuoteChar c).count squote = 0 := by
        simp only [escQuoteChar, beq_eq_false_iff_ne.mpr hc, if_false]
        exact List.count_eq_zero.mpr (by simpa using fun e => hc e.symm)
      rw [h1, List.count_cons_of_ne (fun e => hc e.symm)]
      omega

theorem count_shlex_quote_of_mem (s : String) (h : squote ∈ s.data) :
    (shlex_quote s).data.count squote = 2 + 3 * s.data.count squote := by
  have hne : s ≠ "" := by rintro rfl; cases h
  have hall : (s.data.all isShlexSafeChar) = false := by
    rw [Bool.eq_false_iff]
    intro hAll
    exact absurd (List.all_eq_true.mp hAll squote h) (by decide)
  simp only [shlex_quote, beq_eq_false_iff_ne.mpr hne, Bool.false_eq_true, if_false, hall]
  show ((squote :: (s.data.map escQuoteChar).flatten) ++ [squote]).count squote = _
  rw [List.count_append, List.count_cons_self, count_escQuote]
  simp [List.count_singleton_self]
  omega

theorem count_shlex_quote_of_not_mem (s : String) (h : squote ∉ s.data) :
    (shlex_quote s).data.count squote = 0 ∨ (shlex_quote s).data.count squote = 2 := by
  by_cases he : s = ""
  · subst he; right; decide
  · by_cases hall : s.data.all isShlexSafeChar = true
    · left
      simp only [shlex_quote, beq_eq_false_iff_ne.mpr he, Bool.false_eq_true, if_false, hall,
        if_true]
      exact List.count_eq_zero.mpr h
    · right
      simp only [shlex_quote, beq_eq_false_iff_ne.mpr he, Bool.false_eq_true, if_false,
        Bool.eq_false_iff.mpr hall]
      show ((squote :: (s.data.map escQuoteChar).flatten) ++ [squote]).count squote = 2
      rw [List.count_append, List.count_cons_self, count_escQuote,
        List.count_eq_zero.mpr h, List.count_singleton_self]

/-- C10: the entry-point serializer first deletes every single quote from
each token and then shell-quotes it.  For quote-free tokens this coincides
with the standard shell-escaped joining; for any token containing a single
quote the serialized command differs from the faithful shell escaping of the
original token. -/
theorem claim10_join :
    (∀ args : List String, (∀ a ∈ args, squote ∉ a.data) → join args = shlexJoinStd args)
    ∧ (∀ t : String, squote ∈ t.data → join [t] ≠ shlexJoinStd [t]) := by
  constructor
  · intro args h
    unfold join shlexJoinStd
    congr 1
    apply List.map_congr_left
    intro a ha
    rw [removeSingleQuotes_eq_self a (h a ha)]
  · intro t h heq
    have h1 : join [t] = shlex_quote (removeSingleQuotes t) := rfl
    have h2 : shlexJoinStd [t] = shlex_quote t := rfl
    rw [h1, h2] at heq
    have hc := congrArg (fun s : String => s.data.count squote) heq
    simp only at hc
    have hv := count_shlex_quote_of_mem t h
    have hpos : 0 < t.data.count squote := List.count_pos_iff.mpr h
    rcases count_shlex_quote_of_not_mem _ (removeSingleQuotes_no_squote t) with h0 | h0 <;>
      omega

/-- Witness for C10: a quote-free command round-trips through the standard
escaping; a token with an embedded quote does not. -/
theorem claim10_join_witness :
    join ["python", "train.py"] = shlexJoinStd ["python", "train.py"]
    ∧ join [String.mk ['a', squote, 'b']] ≠ shlexJoinStd [String.mk ['a', squote, 'b']] :=
  ⟨claim10_join.1 _ (by decide), claim10_join.2 _ (by decide)⟩

/-! ### Lemmas about the include-only set (for C3) -/

theorem mem_setInsert (acc : List String) (x s : String) :
    s ∈ setInsert acc x ↔ s ∈ acc ∨ s = x := by
  by_cases hx : x ∈ acc
  · simp only [setInsert, if_pos hx]
    constructor
    · exact Or.inl
    · rintro (h | rfl)
      · exact h
      · exact hx
  · simp [setInsert, if_neg hx, List.mem_append]

theorem mem_foldl_insert (l : List ParsedReq) (acc : List String) (s : String) :
    s ∈ l.foldl (fun acc p => match processReq p with
      | some x => setInsert acc x
      | none => acc) acc
    ↔ s ∈ acc ∨ ∃ q ∈ l, processReq q = some s := by
  induction l generalizing acc with
  | nil => simp
  | cons p t ih =>
    simp only [List.foldl_cons]
    rw [ih]
    cases hp : processReq p with
    | none =>
      simp only [hp]
      constructor
      · rintro (h | ⟨q, hq, hqs⟩)
        · exact Or.inl h
        · exact Or.inr ⟨q, List.mem_cons_of_mem _ hq, hqs⟩
      · rintro (h | ⟨q, hq, hqs⟩)
        · exact Or.inl h
        · rcases List.mem_cons.mp hq with rfl | hq2
          · rw [hp] at hqs; cases hqs
          · exact Or.inr ⟨q, hq2, hqs⟩
    | some x =>
      simp only [hp, mem_setInsert]
      constructor
      · rintro ((h | rfl) | ⟨q, hq, hqs⟩)
        · exact Or.inl h
        · exact Or.inr ⟨p, List.mem_cons_self _ _, hp⟩
        · exact Or.inr ⟨q, List.mem_cons_of_mem _ hq, hqs⟩
      · rintro (h | ⟨q, hq, hqs⟩)
        · exact Or.inl (Or.inl h)
        · rcases List.mem_cons.mp hq with rfl | hq2
          · rw [hp] at hqs
            injection hqs with hxs
            exact Or.inl (Or.inr hxs.symm)
          · exact Or.inr ⟨q, hq2, hqs⟩

theorem mem_includeOnly (parsed : List ParsedReq) (s : String) :
    s ∈ includeOnly parsed ↔ ∃ q ∈ parsed, processReq q = some s := by
  unfold includeOnly
  rw [mem_foldl_insert]
  simp

/-- C3: for a pip project whose tree has both `requirements.txt` and
`requirements.frozen.txt`, the generated section copies both manifests plus
the bootstrap script, its install command invokes the bootstrap script (with
the include-only filter injected before it) rather than a direct
`pip install -r requirements.txt`, and the filter equals exactly
`WANDB_ONLY_INCLUDE=` followed by the comma-joined include set, whose members
are exactly the lowercase shell-quoted names obtained from parsing the plain
manifest. -/
theorem claim3_manifest_precedence (lp : LaunchProject) (parsed : List ParsedReq)
    (builder_type : String) (buildxProbe : Bool) (d : String)
    (hdeps : lp.deps_type = some "pip") (hdir : lp.project_dir = some d)
    (hbt : builder_type = "docker" ∨ builder_type = "kaniko") :
    (∃ p warns,
      get_requirements_section lp true true parsed builder_type buildxProbe
        = .ok (pipTemplateFmt p
            "src/requirements.txt src/requirements.frozen.txt _wandb_bootstrap.py"
            (parse_existing_requirements true parsed ++ "python _wandb_bootstrap.py"), warns))
    ∧ parse_existing_requirements true parsed
        = "WANDB_ONLY_INCLUDE=" ++ String.intercalate "," (includeOnly parsed) ++ " "
    ∧ ∀ s, s ∈ includeOnly parsed ↔ ∃ q ∈ parsed, processReq q = some s := by
  obtain ⟨di, du, dt, pd, pv, uri⟩ := lp
  simp only at hdeps hdir
  subst hdeps hdir
  refine ⟨?_, rfl, fun s => mem_includeOnly parsed s⟩
  rcases hbt with rfl | rfl
  · cases buildxProbe
    · exact ⟨disableCacheLine, [buildxWarning], rfl⟩
    · exact ⟨pipCacheMountLine, [], rfl⟩
  · exact ⟨disableCacheLine, [], rfl⟩

/-- Witness for C3: a concrete pip project with both manifests present on the
kaniko builder. -/
theorem claim3_witness :
    (∃ p warns,
      get_requirements_section ⟨none, none, some "pip", some "/p", none, none⟩ true true
          [ParsedReq.named "NumPy", ParsedReq.failed "bad"] "kaniko" false
        = .ok (pipTemplateFmt p
            "src/requirements.txt src/requirements.frozen.txt _wandb_bootstrap.py"
            (parse_existing_requirements true [ParsedReq.named "NumPy", ParsedReq.failed "bad"]
              ++ "python _wandb_bootstrap.py"), warns))
    ∧ parse_existing_requirements true [ParsedReq.named "NumPy", ParsedReq.failed "bad"]
        = "WANDB_ONLY_INCLUDE=" ++ String.intercalate ","
            (includeOnly [ParsedReq.named "NumPy", ParsedReq.failed "bad"]) ++ " "
    ∧ ∀ s, s ∈ includeOnly [ParsedReq.named "NumPy", ParsedReq.failed "bad"]
        ↔ ∃ q ∈ [ParsedReq.named "NumPy", ParsedReq.failed "bad"], processReq q = some s :=
  claim3_manifest_precedence ⟨none, none, some "pip", some "/p", none, none⟩
    [ParsedReq.named "NumPy", ParsedReq.failed "bad"] "kaniko" false "/p" rfl rfl (Or.inr rfl)

/-- C4 counterexample: a pip project with neither manifest does *not* get the
placeholder section — `pip_install_line` is never assigned and rendering the
pip template raises, so the composition fails instead of warning. -/
theorem claim4_counterexample :
    get_requirements_section ⟨none, none, some "pip", some "/p", none, none⟩ false false []
        "docker" true
      = Except.error
          "UnboundLocalError: local variable pip_install_line referenced before assignment" :=
  rfl

/-- C4 amended: the no-install placeholder (`RUN mkdir -p env/`) plus warning
is produced for projects whose dependency-manager kind is neither pip nor
conda (the no-deps-found kind); a pip-kind project with neither manifest
present instead fails with an unbound-local error. -/
theorem claim4_amended (lp : LaunchProject) (reqE frozenE : Bool) (parsed : List ParsedReq)
    (bt : String) (probe : Bool) :
    (lp.deps_type ≠ some "pip" → lp.deps_type ≠ some "conda" →
      ∃ ws, get_requirements_section lp reqE frozenE parsed bt probe
          = .ok ("RUN mkdir -p env/", ws) ∧ noReqWarning ∈ ws)
    ∧ (lp.deps_type = some "pip" → reqE = false → frozenE = false →
      ∃ msg, get_requirements_section lp reqE frozenE parsed bt probe = .error msg) := by
  obtain ⟨di, du, dt, pd, pv, uri⟩ := lp
  constructor
  · intro h1 h2
    have b1 : (dt == some "pip") = false := beq_eq_false_iff_ne.mpr h1
    have b2 : (dt == some "conda") = false := beq_eq_false_iff_ne.mpr h2
    simp only [get_requirements_section, b1, b2, Bool.false_eq_true, if_false]
    exact ⟨_, rfl, List.mem_append_right _ (List.mem_singleton.mpr rfl)⟩
  · intro h1 h2 h3
    simp only at h1
    subst h1 h2 h3
    by_cases hd : bt = "docker"
    · subst hd
      cases probe <;> cases pd <;> exact ⟨_, rfl⟩
    · by_cases hk : bt = "kaniko"
      · subst hk
        cases pd <;> exact ⟨_, rfl⟩
      · have bd : (bt == "docker") = false := beq_eq_false_iff_ne.mpr hd
        have bk : (bt == "kaniko") = false := beq_eq_false_iff_ne.mpr hk
        simp only [get_requirements_section, bd, bk, Bool.false_eq_true, if_false]
        cases pd <;> exact ⟨_, rfl⟩

/-- Witness for C4 amended: a project with no recognized dependency manager
gets the placeholder plus the warning. -/
theorem claim4_amended_witness :
    ∃ ws, get_requirements_section ⟨none, none, none, some "/p", none, none⟩ true false []
        "docker" true = .ok ("RUN mkdir -p env/", ws) ∧ noReqWarning ∈ ws :=
  (claim4_amended ⟨none, none, none, some "/p", none, none⟩ true false [] "docker" true).1
    (by decide) (by decide)

/-- C5: whenever the cache-mount capability is false — the kaniko builder, or
the docker builder with the buildx probe negative — any successfully
generated pip or conda requirements section is the corresponding template
rendered with the cache-disabling flag `RUN WANDB_DISABLE_CACHE=true` as its
install prefix, which is distinct from both `--mount` cache directives. -/
theorem claim5_cache_gating (lp : LaunchProject) (reqE frozenE : Bool)
    (parsed : List ParsedReq) (bt : String) (probe : Bool)
    (hcap : bt = "kaniko" ∨ (bt = "docker" ∧ probe = false))
    (hdeps : lp.deps_type = some "pip" ∨ lp.deps_type = some "conda") :
    (∀ line ws, get_requirements_section lp reqE frozenE parsed bt probe = .ok (line, ws) →
      (∃ files install, line = pipTemplateFmt disableCacheLine files install)
      ∨ line = condaTemplateFmt disableCacheLine)
    ∧ disableCacheLine ≠ pipCacheMountLine ∧ disableCacheLine ≠ condaCacheMountLine := by
  refine ⟨?_, by decide, by decide⟩
  intro line ws h
  obtain ⟨di, du, dt, pd, pv, uri⟩ := lp
  simp only at hdeps
  rcases hdeps with rfl | rfl
  · rcases hcap with rfl | ⟨rfl, rfl⟩ <;> cases pd <;> cases reqE <;> cases frozenE <;>
      first
      | exact Except.noConfusion h
      | (obtain ⟨rfl, rfl⟩ := Prod.mk.inj (Except.ok.inj h); exact Or.inl ⟨_, _, rfl⟩)
  · rcases hcap with rfl | ⟨rfl, rfl⟩ <;> cases pd <;> cases reqE <;> cases frozenE <;>
      (obtain ⟨rfl, rfl⟩ := Prod.mk.inj (Except.ok.inj h); exact Or.inr rfl)

/-- Witness for C5: kaniko plus conda yields the conda template with the
disabling flag. -/
theorem claim5_witness :
    ((∃ files install,
        condaTemplateFmt disableCacheLine = pipTemplateFmt disableCacheLine files install)
      ∨ condaTemplateFmt disableCacheLine = condaTemplateFmt disableCacheLine)
    ∧ disableCacheLine ≠ pipCacheMountLine ∧ disableCacheLine ≠ condaCacheMountLine :=
  ⟨(claim5_cache_gating ⟨none, none, some "conda", some "/p", none, none⟩ false false []
      "kaniko" false (Or.inl rfl) (Or.inr rfl)).1
      (condaTemplateFmt disableCacheLine) [] rfl,
   (claim5_cache_gating ⟨none, none, some "conda", some "/p", none, none⟩ false false []
      "kaniko" false (Or.inl rfl) (Or.inr rfl)).2⟩

@[simp] theorem isDict_vdict (r : String) : (ConfigVal.vdict r).isDict = true := rfl

/-- C7: a non-mapping value in any of the environment, registry, or builder
sections fails the build with a `LaunchError` whose message names the
offending value (its Python string form) and its actual type; the three
sections are checked by three independent `isinstance` guards, in order. -/
theorem claim7_config_validation (lp : LaunchProject) (cfg : LaunchConfig)
    (br : Bool) (bres : Option String) (huri : pyTruthyStr lp.uri = true) :
    (∀ v, cfg.environment = some v → v.isDict = false →
      build_image_from_project lp cfg br bres = .error (invalidConfigMsg "environment" v))
    ∧ (sectionIsDict cfg.environment = true →
      ∀ v, cfg.registry = some v → v.isDict = false →
        build_image_from_project lp cfg br bres = .error (invalidConfigMsg "registry" v))
    ∧ (sectionIsDict cfg.environment = true → sectionIsDict cfg.registry = true →
      ∀ v, cfg.builder = some v → v.isDict = false →
        build_image_from_project lp cfg br bres = .error (invalidConfigMsg "builder" v))
    ∧ (∀ sec v, invalidConfigMsg sec v
        = "Invalid " ++ sec ++ " config: " ++ v.pyStr ++ " of type " ++ v.typeName
          ++ " loaded from launch config. Expected dict.") := by
  refine ⟨?_, ?_, ?_, fun sec v => rfl⟩
  · intro v hv hd
    simp [build_image_from_project, huri, hv, hd]
  · intro henv v hv hd
    cases henv2 : cfg.environment with
    | none => simp [build_image_from_project, huri, hv, hd, henv2]
    | some w =>
      rw [henv2] at henv
      simp [build_image_from_project, huri, hv, hd, henv2, sectionIsDict] at henv ⊢
      simp [henv]
  · intro henv hreg v hv hd
    cases henv2 : cfg.environment with
    | none =>
      cases hreg2 : cfg.registry with
      | none => simp [build_image_from_project, huri, hv, hd, henv2, hreg2]
      | some w =>
        rw [hreg2] at hreg
        simp [sectionIsDict] at hreg
        simp [build_image_from_project, huri, hv, hd, henv2, hreg2, hreg]
    | some w =>
      rw [henv2] at henv
      simp [sectionIsDict] at henv
      cases hreg2 : cfg.registry with
      | none => simp [build_image_from_project, huri, hv, hd, henv2, hreg2, henv]
      | some x =>
        rw [hreg2] at hreg
        simp [sectionIsDict] at hreg
        simp [build_image_from_project, huri, hv, hd, henv2, hreg2, henv, hreg]

/-- Witness for C7: a list-valued environment section is rejected with the
message naming the value and the type `list`. -/
theorem claim7_witness :
    build_image_from_project ⟨none, none, none, none, none, some "https://u"⟩
        ⟨some (.vlist "[1, 2]"), none, none⟩ true (some "img")
      = .error (invalidConfigMsg "environment" (.vlist "[1, 2]"))
    ∧ invalidConfigMsg "environment" (.vlist "[1, 2]")
      = "Invalid environment config: [1, 2] of type list loaded from launch config. Expected dict." :=
  ⟨(claim7_config_validation ⟨none, none, none, none, none, some "https://u"⟩
      ⟨some (.vlist "[1, 2]"), none, none⟩ true (some "img") rfl).1 _ rfl rfl,
   rfl⟩

/-- C8: with a valid configuration, the dispatcher returns an image reference
exactly when a builder resolves and the builder's build call returns a
(truthy) reference: no builder is the fatal `No builder found` configuration
error, a missing reference is the generic build-failure error, and otherwise
the builder's reference is returned unchanged. -/
theorem claim8_dispatch (lp : LaunchProject) (cfg : LaunchConfig) (br : Bool)
    (bres : Option String) (huri : pyTruthyStr lp.uri = true)
    (h1 : sectionIsDict cfg.environment = true)
    (h2 : sectionIsDict cfg.registry = true)
    (h3 : sectionIsDict cfg.builder = true) :
    (br = false → build_image_from_project lp cfg br bres = .error noBuilderMsg)
    ∧ (br = true → (bres = none ∨ bres = some "") →
        build_image_from_project lp cfg br bres = .error buildFailureMsg)
    ∧ (∀ u, br = true → bres = some u → u ≠ "" →
        build_image_from_project lp cfg br bres = .ok u)
    ∧ ((∃ u, build_image_from_project lp cfg br bres = .ok u)
        ↔ br = true ∧ ∃ u, bres = some u ∧ u ≠ "") := by
  obtain ⟨env?, reg?, bld?⟩ := cfg
  have henv : (env?.getD (ConfigVal.vdict "\x7b\x7d")).isDict = true := by
    cases env? with
    | none => rfl
    | some v => simpa [sectionIsDict] using h1
  have hreg : (reg?.getD (ConfigVal.vdict "\x7b\x7d")).isDict = true := by
    cases reg? with
    | none => rfl
    | some v => simpa [sectionIsDict] using h2
  have hbld : (bld?.getD (ConfigVal.vdict "\x7b\x7d")).isDict = true := by
    cases bld? with
    | none => rfl
    | some v => simpa [sectionIsDict] using h3
  refine ⟨?_, ?_, ?_, ?_⟩
  · rintro rfl
    simp [build_image_from_project, huri, henv, hreg, hbld]
  · rintro rfl (rfl | rfl) <;>
      simp [build_image_from_project, huri, henv, hreg, hbld]
  · rintro u rfl rfl hu
    simp [build_image_from_project, huri, henv, hreg, hbld, hu]
  · constructor
    · rintro ⟨u, hu⟩
      cases br with
      | false =>
        simp [build_image_from_project, huri, henv, hreg, hbld] at hu
      | true =>
        cases bres with
        | none => simp [build_image_from_project, huri, henv, hreg, hbld] at hu
        | some v =>
          by_cases hv : v = ""
          · subst hv
            simp [build_image_from_project, huri, henv, hreg, hbld] at hu
          · exact ⟨rfl, v, rfl, hv⟩
    · rintro ⟨rfl, u, rfl, hu⟩
      exact ⟨u, by simp [build_image_from_project, huri, henv, hreg, hbld, hu]⟩

/-- Witness for C8: a resolved builder returning a nonempty reference makes
the dispatcher return it unchanged. -/
theorem claim8_witness :
    build_image_from_project ⟨none, none, none, none, none, some "https://u"⟩
        ⟨none, none, none⟩ true (some "registry/img:abc")
      = .ok "registry/img:abc" :=
  ((claim8_dispatch ⟨none, none, none, none, none, some "https://u"⟩
      ⟨none, none, none⟩ true (some "registry/img:abc") rfl rfl rfl rfl).2.2.1)
    "registry/img:abc" rfl rfl (by decide)

/-! ### Lemmas about directory copying and writes (for C9) -/

theorem lookupEntry_writeEntry_self (es : List (String × FSEntry)) (nm : String) (e : FSEntry) :
    lookupEntry (writeEntry es nm e) nm = some e := by
  induction es with
  | nil => simp [writeEntry, lookupEntry, List.find?]
  | cons p rest ih =>
    obtain ⟨n, x⟩ := p
    by_cases hn : n = nm
    · subst hn
      simp [writeEntry, lookupEntry, List.find?]
    · have hb : (n == nm) = false := beq_eq_false_iff_ne.mpr hn
      simp only [writeEntry, hb, Bool.false_eq_true, if_false]
      simpa [lookupEntry, List.find?_cons_of_neg, hb] using ih

theorem copyEntries_no_fsmonitor (es : List (String × FSEntry)) (e : FSEntry) :
    (fsmonitorName, e) ∉ copyEntries es := by
  induction es with
  | nil => simp [copyEntries]
  | cons p rest ih =>
    obtain ⟨n, x⟩ := p
    by_cases hn : n = fsmonitorName
    · subst hn
      simpa [copyEntries] using ih
    · have hb : (n == fsmonitorName) = false := beq_eq_false_iff_ne.mpr hn
      simp only [copyEntries, hb, Bool.false_eq_true, if_false]
      intro hmem
      rcases List.mem_cons.mp hmem with heq | hmem2
      · exact hn (congrArg Prod.fst heq).symm
      · exact ih hmem2

theorem copyEntries_mem (es : List (String × FSEntry)) (n : String) (e : FSEntry)
    (hn : n ≠ fsmonitorName) (hmem : (n, e) ∈ es) : (n, copyEntry e) ∈ copyEntries es := by
  induction es with
  | nil => cases hmem
  | cons p rest ih =>
    obtain ⟨m, x⟩ := p
    rcases List.mem_cons.mp hmem with heq | hmem2
    · obtain ⟨rfl, rfl⟩ := Prod.mk.inj heq.symm
      have hb : (m == fsmonitorName) = false := beq_eq_false_iff_ne.mpr hn
      simp [copyEntries, hb]
    · by_cases hm : m = fsmonitorName
      · subst hm
        simpa [copyEntries] using ih hmem2
      · have hb : (m == fsmonitorName) = false := beq_eq_false_iff_ne.mpr hm
        simp only [copyEntries, hb, Bool.false_eq_true, if_false]
        exact List.mem_cons_of_mem _ (ih hmem2)

/-- C9: staging starts from a fresh empty temporary directory and produces
exactly three root entries — the filtered recursive copy of the source tree
under `src`, the bootstrap helper copied verbatim, and the recipe text under
the reserved Dockerfile name — where the copy preserves symlinks, excludes
`fsmonitor--daemon.ipc` at every level and keeps every other entry, and
`src/runtime.txt` holds `python-` followed by the pinned version exactly when
the descriptor pins one (overwriting any copied file of that name). -/
theorem claim9_build_ctx (tree : List (String × FSEntry)) (pv : Option String) (bs df : String) :
    _create_docker_build_ctx tree pv bs df
      = [("src", .dir (match pv with
            | some v => writeEntry (copyEntries tree) "runtime.txt" (.file ("python-" ++ v))
            | none => copyEntries tree)),
         (bootstrapName, .file bs),
         (_GENERATED_DOCKERFILE_NAME, .file df)]
    ∧ (∀ t, copyEntry (.symlink t) = .symlink t)
    ∧ (∀ es e, (fsmonitorName, e) ∉ copyEntries es)
    ∧ (∀ es n e, n ≠ fsmonitorName → (n, e) ∈ es → (n, copyEntry e) ∈ copyEntries es)
    ∧ (∀ v, pv = some v →
        ∃ es, lookupEntry (_create_docker_build_ctx tree pv bs df) "src" = some (.dir es)
          ∧ lookupEntry es "runtime.txt" = some (.file ("python-" ++ v))) := by
  refine ⟨?_, fun t => rfl, fun es e => copyEntries_no_fsmonitor es e,
    fun es n e => copyEntries_mem es n e, ?_⟩
  · cases pv <;> rfl
  · intro v hv
    subst hv
    exact ⟨writeEntry (copyEntries tree) "runtime.txt" (.file ("python-" ++ v)), rfl,
      lookupEntry_writeEntry_self _ _ _⟩

/-- Witness for C9: a concrete tree with the ignored socket dropped, the
other file kept, and the runtime pin written under `src`. -/
theorem claim9_witness :
    ("train.py", copyEntry (.file "T"))
      ∈ copyEntries [("train.py", FSEntry.file "T"), ("fsmonitor--daemon.ipc", FSEntry.file "S")]
    ∧ ∃ es, lookupEntry (_create_docker_build_ctx [("train.py", FSEntry.file "T")]
          (some "3.9.7") "BOOT" "DOCKER") "src" = some (.dir es)
        ∧ lookupEntry es "runtime.txt" = some (.file ("python-" ++ "3.9.7")) :=
  ⟨(claim9_build_ctx [] none "" "").2.2.2.1 _ "train.py" (.file "T") (by decide)
      (List.mem_cons_self _ _),
   (claim9_build_ctx [("train.py", FSEntry.file "T")] (some "3.9.7") "BOOT" "DOCKER").2.2.2.2
      "3.9.7" rfl⟩

end WandbBuild
